import Mathlib

/-!
# Verification of the recruitment-agent request-processing pipeline

Shallow embedding of the recruitment-agent repository: the Score
Aggregator, the AI Scoring Client's retry policy, the Request
Orchestrator's per-submission state machine, the HTTP surface's
status mapping, and the React front end (`Dashboard.handleFileUpload`
and `ResultsDisplay`).  The front-end components are translated from
the JSX sources under `frontend/src`; the Python back end
(`agent.py`, `app.py`, `email_service.py`) is not part of the source
tree, so those components are modelled from the specification, as
marked in their doc comments.  Exact rational arithmetic (`ℚ`) stands
in for IEEE floats: the scoring formula only multiplies and adds
decimal literals, which is exact in both representations for the
ranges involved.
-/

namespace RecruitmentAgent

/-! ## Score Aggregator (spec §4.2) -/

/-- The four-dimension score map produced by the AI scoring step.
Each dimension may be absent (`none`); spec §4.2: missing dimensions
default to 0. -/
structure Dimensions where
  skill_match : Option ℚ
  experience_match : Option ℚ
  role_match : Option ℚ
  certification_bonus : Option ℚ
deriving DecidableEq, Repr

/-- Clamp a rational into `[0,1]`. -/
def clamp01 (x : ℚ) : ℚ := min 1 (max 0 x)

/-- The effective value of one dimension: missing defaults to 0, then
the value is clamped to `[0,1]` (spec §4.2). -/
def dimVal (o : Option ℚ) : ℚ := clamp01 (o.getD 0)

/-- Modelled from the spec: `aggregate` of §4.2 (the back-end file
`agent.py` that implements it is not under the source tree).
`final = 0.50*skill + 0.20*experience + 0.15*role + 0.10*(ats/100)
+ 0.05*certification`, with each dimension clamped to `[0,1]` and
missing dimensions defaulting to 0.  Pure and total by construction. -/
def aggregate (atsScore : ℤ) (d : Dimensions) : ℚ :=
  0.50 * dimVal d.skill_match
    + 0.20 * dimVal d.experience_match
    + 0.15 * dimVal d.role_match
    + 0.10 * ((atsScore : ℚ) / 100)
    + 0.05 * dimVal d.certification_bonus

/-- The dimension map of the worked example (README response example /
spec §8): skill 0.92, experience 0.65, role 0.88, certification 0.40. -/
def exampleDims : Dimensions :=
  { skill_match := some 0.92
    experience_match := some 0.65
    role_match := some 0.88
    certification_bonus := some 0.40 }

/-! ## Data model (spec §3) -/

/-- Candidate contact information; each field optional, the `N/A`
sentinel is applied only at the presentation layer. -/
structure CandidateInfo where
  name : Option String
  email : Option String
  phone : Option String
deriving DecidableEq, Repr

/-- Modelled from the spec: the `AtsCheck` record of §3 produced by
the AI scoring step of the missing back end (`agent.py`): a 0–100
score, a pass flag, and an ordered list of reason strings. -/
structure AtsCheck where
  score : ℤ
  passed : Bool
  reasons : List String
deriving DecidableEq, Repr

/-- The final scoring result returned as the HTTP response body
(spec §3). -/
structure ScoringResult where
  candidate_info : CandidateInfo
  ats_check : AtsCheck
  dimension_scores : Dimensions
  final_score : ℚ
  email_sent : Bool
deriving DecidableEq, Repr

/-! ## Request Orchestrator (spec §4.5) -/

/-- The per-submission pipeline stages of spec §4.5. -/
inductive Stage where
  | received
  | extracting
  | scoring
  | aggregating
  | notifying
  | completed
  | failed
deriving DecidableEq, Repr

/-- The error taxonomy of spec §7 for fatal pipeline errors.
(`NotificationError` is non-fatal and never surfaces as a response
error, so it is not a constructor here.) -/
inductive PipeError where
  | invalidInput
  | extractionFailed
  | transport
  | schema
deriving DecidableEq, Repr

/-- One resume submission (spec §3 `ResumeSubmission`): opaque PDF
bytes, a job role, and optional explicit candidate fields. -/
structure Submission where
  pdf : List ℕ
  jobRole : String
  candidate_name : Option String
  candidate_email : Option String
  candidate_linkedin : Option String
deriving DecidableEq, Repr

/-- The outcomes of the external dependencies for one run: what the
PDF extractor returns, what the AI scoring step returns, and whether
the email provider accepts the notification. -/
structure ExternalWorld where
  extractOut : Except PipeError String
  scoreOut : Except PipeError (AtsCheck × Dimensions)
  notifyOk : Bool

/-- Modelled from the spec: the Request Orchestrator of §4.5 (the back
end `agent.py`/`app.py` is not under the source tree).  Strictly
sequential; extraction or scoring failure aborts to `failed`; the
aggregator is the only place computing `final_score`; notification
failure is non-fatal — the run still completes, recording
`email_sent = false`.  Returns the visited stage trace and the
result.  Explicit candidate fields take precedence over extracted
ones (spec §9). -/
def run (sub : Submission) (w : ExternalWorld) :
    List Stage × Except PipeError ScoringResult :=
  match w.extractOut with
  | Except.error e =>
      ([Stage.received, Stage.extracting, Stage.failed], Except.error e)
  | Except.ok _text =>
      match w.scoreOut with
      | Except.error e =>
          ([Stage.received, Stage.extracting, Stage.scoring, Stage.failed],
           Except.error e)
      | Except.ok (ats, dims) =>
          let info : CandidateInfo :=
            { name := sub.candidate_name
              email := sub.candidate_email
              phone := none }
          let finalScore := aggregate ats.score dims
          ([Stage.received, Stage.extracting, Stage.scoring,
            Stage.aggregating, Stage.notifying, Stage.completed],
           Except.ok
             { candidate_info := info
               ats_check := ats
               dimension_scores := dims
               final_score := finalScore
               email_sent := w.notifyOk })

/-- The transitions allowed by the spec §4.5 state diagram:
`Received → Extracting → Scoring → Aggregating → Notifying →
Completed`, with `Failed` reachable only from `Extracting` or
`Scoring`. -/
def stepOk : Stage → Stage → Bool
  | Stage.received, Stage.extracting => true
  | Stage.extracting, Stage.scoring => true
  | Stage.scoring, Stage.aggregating => true
  | Stage.aggregating, Stage.notifying => true
  | Stage.notifying, Stage.completed => true
  | Stage.extracting, Stage.failed => true
  | Stage.scoring, Stage.failed => true
  | _, _ => false

/-! ## HTTP surface (spec §4.6, §6, §7) -/

/-- A JSON response body: either a serialized `ScoringResult` or a
user-safe error object. -/
inductive HttpBody where
  | result (r : ScoringResult)
  | failure (msg : String)
deriving DecidableEq, Repr

/-- The status code for each fatal error, from the spec §7 taxonomy:
`ValidationError` 400, `ExtractionError` 422, `TransportError` 502,
`SchemaError` 502. -/
def errorStatus : PipeError → ℕ
  | PipeError.invalidInput => 400
  | PipeError.extractionFailed => 422
  | PipeError.transport => 502
  | PipeError.schema => 502

/-- The user-safe message for each fatal error (spec §7: never the raw
provider text). -/
def errMsg : PipeError → String
  | PipeError.invalidInput => "ValidationError"
  | PipeError.extractionFailed => "ExtractionError"
  | PipeError.transport => "TransportError"
  | PipeError.schema => "SchemaError"

/-- Modelled from the spec: the HTTP surface of §4.6/§7 (`app.py` is
not under the source tree): a success becomes `200` with the
`ScoringResult` body, a fatal stage error becomes its taxonomy status
with a user-safe error body. -/
def respond : Except PipeError ScoringResult → ℕ × HttpBody
  | Except.ok r => (200, HttpBody.result r)
  | Except.error e => (errorStatus e, HttpBody.failure (errMsg e))

/-! ## AI Scoring Client (spec §4.3) -/

/-- The observable outcome of one attempt against the AI provider:
a transient transport failure, a schema-violating (malformed)
response, or a valid payload. -/
inductive AiOutcome where
  | transient
  | malformed
  | valid (ats : AtsCheck) (dims : Dimensions)

/-- Modelled from the spec: the AI Scoring Client retry loop of §4.3
(the back end is not under the source tree).  `att n` is the outcome
of the `n`-th attempt; `i` the index of the next attempt; `retries`
how many retries remain.  A valid payload is returned; a
schema-violating response fails immediately with `SchemaError` (never
retried); a transient failure is retried while retries remain, else
fails with `TransportError`.  Returns the total number of attempts
made so far and the result. -/
def runClient (att : ℕ → AiOutcome) (i : ℕ) (retries : ℕ) :
    ℕ × Except PipeError (AtsCheck × Dimensions) :=
  match att i with
  | AiOutcome.valid ats dims => (i + 1, Except.ok (ats, dims))
  | AiOutcome.malformed => (i + 1, Except.error PipeError.schema)
  | AiOutcome.transient =>
      match retries with
      | 0 => (i + 1, Except.error PipeError.transport)
      | Nat.succ r => runClient att (i + 1) r
termination_by retries

/-- The whole pipeline with the scoring stage driven by the AI
Scoring Client: extraction outcome `ext`, attempt outcomes `att`,
retry budget `retries`, email-provider outcome `notifyOk`. -/
def runWithClient (sub : Submission) (ext : Except PipeError String)
    (att : ℕ → AiOutcome) (retries : ℕ) (notifyOk : Bool) :
    List Stage × Except PipeError ScoringResult :=
  run sub
    { extractOut := ext
      scoreOut := (runClient att 0 retries).2
      notifyOk := notifyOk }

/-- The configurable ATS threshold, default 70 (README:
`RecruitmentPipeline(ats_threshold=70)`). -/
def defaultAtsThreshold : ℤ := 70

/-! ## JSON values and the documented `/api/process` response shape -/

/-- A small JSON value model for the documented HTTP response bodies. -/
inductive Json where
  | null
  | jbool (b : Bool)
  | num (q : ℚ)
  | str (s : String)
  | obj (fields : List (String × Json))

/-- The keys of a JSON object (empty for non-objects). -/
def Json.keys : Json → List String
  | Json.obj fs => fs.map Prod.fst
  | _ => []

/-- First-match lookup in a JSON object field list. -/
def Json.lookupField : List (String × Json) → String → Option Json
  | [], _ => none
  | (k, v) :: rest, key => if k = key then some v else Json.lookupField rest key

/-- Field access on a JSON object (none for non-objects). -/
def Json.getField : Json → String → Option Json
  | Json.obj fs, key => Json.lookupField fs key
  | _, _ => none

/-- The `ats_check` object of the documented `/api/process` response
(README lines 141–146): it carries `score`, `recommendation`,
`strong_point` and `weak_point` — no `passed` and no `reasons`
fields. -/
def readmeAtsCheck : Json :=
  Json.obj
    [("score", Json.num 85),
     ("recommendation", Json.str "Strong ML background"),
     ("strong_point", Json.str "Advanced Python skills"),
     ("weak_point", Json.str "Limited production experience")]

/-- The full documented `/api/process` success response (README lines
128–157): the threshold flag is the top-level `meets_ats_threshold`
field, not a `passed` field inside `ats_check`. -/
def readmeResponse : Json :=
  Json.obj
    [("status", Json.str "processed"),
     ("meets_ats_threshold", Json.jbool true),
     ("candidate_info",
       Json.obj
         [("name", Json.str "John Doe"),
          ("email", Json.str "john@example.com"),
          ("phone", Json.str "+1234567890")]),
     ("ats_check", readmeAtsCheck),
     ("dimension_scores",
       Json.obj
         [("skill_match", Json.num 0.92),
          ("experience_match", Json.num 0.65),
          ("role_match", Json.num 0.88),
          ("certification_bonus", Json.num 0.40)]),
     ("final_score", Json.num 0.823),
     ("email_sent", Json.jbool true)]

/-- The `ats_check` JSON object as the README documents it, built from
its four fields. -/
def mkAtsCheckJson (score : ℤ) (recommendation strongPoint weakPoint : String) :
    Json :=
  Json.obj
    [("score", Json.num (score : ℚ)),
     ("recommendation", Json.str recommendation),
     ("strong_point", Json.str strongPoint),
     ("weak_point", Json.str weakPoint)]

/-- Modelled from the spec and the README response example: the
success-response builder of the missing back end (`app.py`), with the
pass flag exposed as the top-level `meets_ats_threshold`, true exactly
when the ATS score reaches the threshold. -/
def mkProcessResponse (threshold score : ℤ)
    (recommendation strongPoint weakPoint : String) (ci dims : Json)
    (finalScore : ℚ) (emailSent : Bool) : Json :=
  Json.obj
    [("status", Json.str "processed"),
     ("meets_ats_threshold", Json.jbool (decide (threshold ≤ score))),
     ("candidate_info", ci),
     ("ats_check", mkAtsCheckJson score recommendation strongPoint weakPoint),
     ("dimension_scores", dims),
     ("final_score", Json.num finalScore),
     ("email_sent", Json.jbool emailSent)]

/-! ## Front end: `ResultsDisplay` (frontend/src, second document of
App.jsx) -/

/-- A JavaScript field value as `ResultsDisplay` can receive it: a
number, a string, or something non-numeric such as `undefined`. -/
inductive JsVal where
  | num (q : ℚ)
  | str (s : String)
  | undef
deriving DecidableEq, Repr

/-- The `candidate_info` object as read by `ResultsDisplay`: each
field may be absent. -/
structure CandObj where
  name : Option String
  email : Option String
  phone : Option String
deriving DecidableEq, Repr

/-- The `ats_check` object as read by `ResultsDisplay`: it reads only
`passed` and `reasons`, both possibly absent. -/
structure AtsObj where
  passed : Option Bool
  reasons : Option (List String)
deriving DecidableEq, Repr

/-- A result object handed to `ResultsDisplay`: every sub-object may
be absent and `final_score` may be non-numeric. -/
structure ResObj where
  candidate_info : Option CandObj
  ats_check : Option AtsObj
  dimension_scores : Option (List (String × JsVal))
  final_score : JsVal
deriving DecidableEq, Repr

/-- JavaScript `x || d` on an optional string: absent and the falsy
empty string both fall back to the default. -/
def jsStrOr (o : Option String) (d : String) : String :=
  match o with
  | some s => if s = "" then d else s
  | none => d

/-- JavaScript `typeof x === number ? x : 0`. -/
def numOr0 : JsVal → ℚ
  | JsVal.num q => q
  | _ => 0

/-- What `ResultsDisplay` renders: the displayed strings and numbers. -/
structure RenderedResult where
  name : String
  email : String
  phone : String
  passedText : String
  reasonsShown : Option (List String)
  dimsNA : Bool
  dimensionEntries : List (String × JsVal)
  finalScore : ℚ
  scoreColor : String
  percent : ℤ
deriving DecidableEq, Repr

/-- Translated from `ResultsDisplay` (App.jsx): defaults `{}` for
missing `candidate_info`/`ats_check`/`dimension_scores`, `N/A` for
missing contact fields, 0 for a non-numeric `final_score`; the reasons
list is shown only when present and non-empty; the percentage is
`(finalScore*100).toFixed(0)`. -/
def renderObj (r : ResObj) : RenderedResult :=
  let candidateInfo := r.candidate_info.getD { name := none, email := none, phone := none }
  let atsCheck := r.ats_check.getD { passed := none, reasons := none }
  let dimensions := r.dimension_scores.getD []
  let finalScore := numOr0 r.final_score
  { name := jsStrOr candidateInfo.name "N/A"
    email := jsStrOr candidateInfo.email "N/A"
    phone := jsStrOr candidateInfo.phone "N/A"
    passedText := if atsCheck.passed.getD false then "Yes" else "No"
    reasonsShown :=
      match atsCheck.reasons with
      | some rs => if 0 < rs.length then some rs else none
      | none => none
    dimsNA := dimensions.isEmpty
    dimensionEntries := dimensions
    finalScore := finalScore
    scoreColor :=
      if finalScore ≥ 0.7 then "green"
      else if finalScore ≥ 0.5 then "orange" else "red"
    percent := round (finalScore * 100) }

/-- Translated from `ResultsDisplay` (App.jsx): `if (!result) return
null`, otherwise render the object. -/
def render : Option ResObj → Option RenderedResult
  | none => none
  | some r => some (renderObj r)

/-! ## Front end: `Dashboard.handleFileUpload` (Dashboard.jsx) -/

/-- The `Dashboard` component state touched by `handleFileUpload`. -/
structure DashboardState where
  roles : List String
  selectedRole : String
  loading : Bool
  result : Option ResObj
  error : String
deriving DecidableEq, Repr

/-- The candidate-info form fields of `FileUpload` (always strings,
initially empty). -/
structure CandidateForm where
  name : String
  email : String
  linkedin : String
deriving DecidableEq, Repr

/-- Translated from `handleFileUpload` (Dashboard.jsx): the multipart
form data — `file` and `job_role` always, each candidate field only
when (JS-truthy, i.e. non-empty). -/
def buildFormData (file : String) (jobRole : String) (ci : CandidateForm) :
    List (String × String) :=
  [("file", file), ("job_role", jobRole)]
    ++ (if ci.name = "" then [] else [("candidate_name", ci.name)])
    ++ (if ci.email = "" then [] else [("candidate_email", ci.email)])
    ++ (if ci.linkedin = "" then [] else [("candidate_linkedin", ci.linkedin)])

/-- Translated from `handleFileUpload` (Dashboard.jsx) up to the POST:
with no selected role it sets the error message and returns (no
request); otherwise it sets `loading`, clears `error` and `result`,
and issues the POST with the built form data. -/
def handleFileUpload (st : DashboardState) (file : String) (ci : CandidateForm) :
    DashboardState × Option (List (String × String)) :=
  if st.selectedRole = "" then
    ({ st with error := "Select a job role first" }, none)
  else
    ({ st with loading := true, error := "", result := none },
     some (buildFormData file st.selectedRole ci))

/-! ## Concrete example values (README response example) -/

/-- The `AtsCheck` of the worked example, score 85. -/
def exampleAts : AtsCheck :=
  { score := 85, passed := true, reasons := ["Strong ML background"] }

/-- A concrete submission matching the README example. -/
def exampleSubmission : Submission :=
  { pdf := [37, 80, 68, 70]
    jobRole := "Machine Learning Engineer"
    candidate_name := some "John Doe"
    candidate_email := some "john@example.com"
    candidate_linkedin := none }

/-- A world where extraction and scoring succeed but the email
provider fails. -/
def exampleWorldEmailFail : ExternalWorld :=
  { extractOut := Except.ok "resume text"
    scoreOut := Except.ok (exampleAts, exampleDims)
    notifyOk := false }

/-- The scoring result the orchestrator produces in
`exampleWorldEmailFail`. -/
def exampleResult : ScoringResult :=
  { candidate_info := ⟨some "John Doe", some "john@example.com", none⟩
    ats_check := exampleAts
    dimension_scores := exampleDims
    final_score := aggregate exampleAts.score exampleDims
    email_sent := false }

end RecruitmentAgent

namespace RecruitmentAgent

/-! ## Helper lemmas -/

theorem clamp01_of_mem {x : ℚ} (h0 : 0 ≤ x) (h1 : x ≤ 1) : clamp01 x = x := by
  simp [clamp01, max_eq_right h0, min_eq_right h1]

theorem dimVal_nonneg (o : Option ℚ) : 0 ≤ dimVal o := by
  simp [dimVal, clamp01]

theorem dimVal_le_one (o : Option ℚ) : dimVal o ≤ 1 := by
  simp [dimVal, clamp01]

/-! ## Claims about the aggregator -/

/-- C1 counterexample: At the worked example — atsScore 85,
skill 0.92, experience 0.65, role 0.88, certification 0.40 — the
weighted formula gives `aggregate = 0.827`, not the `0.823` the claim
(and the README/spec example) states. -/
theorem C1_counterexample :
    aggregate 85 exampleDims = 0.827 ∧ ¬ aggregate 85 exampleDims = 0.823 := by
  constructor
  · norm_num [aggregate, exampleDims, dimVal, clamp01]
  · norm_num [aggregate, exampleDims, dimVal, clamp01]

/-- C1 amended: For every `atsScore ∈ [0,100]` and dimensions
each in `[0,1]`, `aggregate` equals exactly
`0.50*skill + 0.20*experience + 0.15*role + 0.10*(ats/100) + 0.05*cert`
and lies in `[0,1]`; in particular the worked example yields `0.827`
(the claim said `0.823`, which the formula contradicts). -/
theorem C1_aggregate_formula (ats : ℤ) (s e r c : ℚ)
    (hats0 : 0 ≤ ats) (hats1 : ats ≤ 100)
    (hs0 : 0 ≤ s) (hs1 : s ≤ 1) (he0 : 0 ≤ e) (he1 : e ≤ 1)
    (hr0 : 0 ≤ r) (hr1 : r ≤ 1) (hc0 : 0 ≤ c) (hc1 : c ≤ 1) :
    aggregate ats ⟨some s, some e, some r, some c⟩
        = 0.50 * s + 0.20 * e + 0.15 * r + 0.10 * ((ats : ℚ) / 100) + 0.05 * c
      ∧ 0 ≤ aggregate ats ⟨some s, some e, some r, some c⟩
      ∧ aggregate ats ⟨some s, some e, some r, some c⟩ ≤ 1
      ∧ aggregate 85 exampleDims = 0.827 := by
  have hq0 : (0 : ℚ) ≤ (ats : ℚ) := by exact_mod_cast hats0
  have hq1 : (ats : ℚ) ≤ 100 := by exact_mod_cast hats1
  have hform : aggregate ats ⟨some s, some e, some r, some c⟩
      = 0.50 * s + 0.20 * e + 0.15 * r + 0.10 * ((ats : ℚ) / 100) + 0.05 * c := by
    simp only [aggregate, dimVal, Option.getD]
    rw [clamp01_of_mem hs0 hs1, clamp01_of_mem he0 he1,
      clamp01_of_mem hr0 hr1, clamp01_of_mem hc0 hc1]
  refine ⟨hform, ?_, ?_, ?_⟩
  · rw [hform]; positivity
  · rw [hform]
    have hdiv : (ats : ℚ) / 100 ≤ 1 := by linarith [hq1]
    linarith
  · norm_num [aggregate, exampleDims, dimVal, clamp01]

/-- Witness for `C1_aggregate_formula` at the worked example inputs. -/
theorem C1_aggregate_formula_witness :
    aggregate 85 ⟨some 0.92, some 0.65, some 0.88, some 0.40⟩
        = 0.50 * 0.92 + 0.20 * 0.65 + 0.15 * 0.88
            + 0.10 * ((85 : ℚ) / 100) + 0.05 * 0.40
      ∧ 0 ≤ aggregate 85 ⟨some 0.92, some 0.65, some 0.88, some 0.40⟩
      ∧ aggregate 85 ⟨some 0.92, some 0.65, some 0.88, some 0.40⟩ ≤ 1
      ∧ aggregate 85 exampleDims = 0.827 :=
  C1_aggregate_formula 85 0.92 0.65 0.88 0.40
    (by norm_num) (by norm_num) (by norm_num) (by norm_num) (by norm_num)
    (by norm_num) (by norm_num) (by norm_num) (by norm_num) (by norm_num)

/-- C2: `aggregate` is total and never fails: it is insensitive to
replacing every dimension by its clamped default (each value is
clamped to `[0,1]` and a missing value is read as 0 before weighting);
with every dimension missing it still returns a value, namely
`ats/1000`; and replacing a missing dimension by an explicit 0 never
changes the result. -/
theorem C2_aggregate_total (ats : ℤ) (d : Dimensions) :
    aggregate ats d
        = aggregate ats
            ⟨some (dimVal d.skill_match), some (dimVal d.experience_match),
             some (dimVal d.role_match), some (dimVal d.certification_bonus)⟩
      ∧ aggregate ats ⟨none, none, none, none⟩ = (ats : ℚ) / 1000
      ∧ aggregate ats ⟨none, d.experience_match, d.role_match, d.certification_bonus⟩
        = aggregate ats ⟨some 0, d.experience_match, d.role_match, d.certification_bonus⟩ := by
  have hidem : ∀ o : Option ℚ, dimVal (some (dimVal o)) = dimVal o := by
    intro o
    have h0 := dimVal_nonneg o
    have h1 := dimVal_le_one o
    simp [dimVal, Option.getD]
    exact clamp01_of_mem h0 h1
  refine ⟨?_, ?_, ?_⟩
  · simp [aggregate, hidem]
  · norm_num [aggregate, dimVal, clamp01]
    ring
  · simp [aggregate, dimVal, Option.getD]

/-- C3: `aggregate` is deterministic: two invocations with equal
`atsScore` and (field-wise) equal dimension maps return equal results.
(Side-effect freedom is inherent in the embedding: `aggregate` is a
pure function of its arguments.) -/
theorem C3_aggregate_deterministic (a1 a2 : ℤ) (d1 d2 : Dimensions)
    (ha : a1 = a2)
    (hs : d1.skill_match = d2.skill_match)
    (he : d1.experience_match = d2.experience_match)
    (hr : d1.role_match = d2.role_match)
    (hc : d1.certification_bonus = d2.certification_bonus) :
    aggregate a1 d1 = aggregate a2 d2 := by
  cases d1
  cases d2
  simp_all [aggregate]

/-- Witness for `C3_aggregate_deterministic` at concrete equal inputs. -/
theorem C3_aggregate_deterministic_witness :
    aggregate 85 exampleDims
      = aggregate 85 ⟨some 0.92, some 0.65, some 0.88, some 0.40⟩ :=
  C3_aggregate_deterministic 85 85 exampleDims
    ⟨some 0.92, some 0.65, some 0.88, some 0.40⟩ rfl rfl rfl rfl rfl

/-! ## Claims about the orchestrator, client and HTTP surface -/

/-- C4: when a run reaches the Notifying stage and the email provider
fails, the request does not fail: the result is still `Except.ok` with
`email_sent = false`, the trace reaches Completed, and the HTTP
response is 200 with the `ScoringResult` body. -/
theorem C4_email_failure_nonfatal (sub : Submission) (w : ExternalWorld)
    (hn : Stage.notifying ∈ (run sub w).1) (hfail : w.notifyOk = false) :
    ∃ r : ScoringResult,
      (run sub w).2 = Except.ok r
        ∧ r.email_sent = false
        ∧ Stage.completed ∈ (run sub w).1
        ∧ respond (run sub w).2 = (200, HttpBody.result r) := by
  rcases hext : w.extractOut with e | t
  · simp [run, hext] at hn
  · rcases hsc : w.scoreOut with e | p
    · simp [run, hext, hsc] at hn
    · obtain ⟨ats, dims⟩ := p
      refine ⟨{ candidate_info := ⟨sub.candidate_name, sub.candidate_email, none⟩
                ats_check := ats
                dimension_scores := dims
                final_score := aggregate ats.score dims
                email_sent := w.notifyOk }, ?_, ?_, ?_, ?_⟩
      · simp [run, hext, hsc]
      · exact hfail
      · simp [run, hext, hsc]
      · simp [run, hext, hsc, respond]

/-- Witness for `C4_email_failure_nonfatal` at the worked example with
a failing email provider. -/
theorem C4_email_failure_nonfatal_witness :
    ∃ r : ScoringResult,
      (run exampleSubmission exampleWorldEmailFail).2 = Except.ok r
        ∧ r.email_sent = false
        ∧ Stage.completed ∈ (run exampleSubmission exampleWorldEmailFail).1
        ∧ respond (run exampleSubmission exampleWorldEmailFail).2
            = (200, HttpBody.result r) :=
  C4_email_failure_nonfatal exampleSubmission exampleWorldEmailFail
    (by decide) rfl

/-- C5: a schema-violating (malformed) AI response is never retried —
the client stops after exactly one attempt with a `SchemaError` — and
the request then answers 502 `SchemaError`; conversely more than one
attempt from any position means that attempt's outcome was a transient
transport failure. -/
theorem C5_no_retry_on_schema (sub : Submission) (t : String)
    (att : ℕ → AiOutcome) (retries : ℕ) (notifyOk : Bool)
    (hmal : att 0 = AiOutcome.malformed) :
    runClient att 0 retries = (1, Except.error PipeError.schema)
      ∧ respond (runWithClient sub (Except.ok t) att retries notifyOk).2
          = (502, HttpBody.failure "SchemaError")
      ∧ ∀ j r : ℕ, j + 1 < (runClient att j r).1 → att j = AiOutcome.transient := by
  have hstop : runClient att 0 retries = (1, Except.error PipeError.schema) := by
    cases retries <;> simp [runClient, hmal]
  refine ⟨hstop, ?_, ?_⟩
  · simp [runWithClient, run, hstop, respond, errorStatus, errMsg]
  · intro j r hlt
    cases hj : att j with
    | transient => rfl
    | malformed => cases r <;> simp [runClient, hj] at hlt
    | valid ats dims => cases r <;> simp [runClient, hj] at hlt

/-- Witness for `C5_no_retry_on_schema` with an always-malformed
provider and a retry budget of 3. -/
theorem C5_no_retry_on_schema_witness :
    runClient (fun _ => AiOutcome.malformed) 0 3
        = (1, Except.error PipeError.schema)
      ∧ respond (runWithClient exampleSubmission (Except.ok "resume text")
            (fun _ => AiOutcome.malformed) 3 true).2
          = (502, HttpBody.failure "SchemaError")
      ∧ ∀ j r : ℕ,
          j + 1 < (runClient (fun _ => AiOutcome.malformed) j r).1 →
          (fun _ => AiOutcome.malformed) j = AiOutcome.transient :=
  C5_no_retry_on_schema exampleSubmission "resume text"
    (fun _ => AiOutcome.malformed) 3 true rfl

/-- C6: every orchestrator run starts at Received, follows only the
transitions of the spec §4.5 diagram (so Failed is entered only from
Extracting or Scoring), ends in Completed or Failed, and once
Notifying is reached the run never fails — it reaches Completed. -/
theorem C6_state_machine (sub : Submission) (w : ExternalWorld) :
    (run sub w).1.head? = some Stage.received
      ∧ List.Chain' (fun a b => stepOk a b = true) (run sub w).1
      ∧ ((run sub w).1.getLast? = some Stage.completed
          ∨ (run sub w).1.getLast? = some Stage.failed)
      ∧ (Stage.notifying ∈ (run sub w).1 →
          Stage.failed ∉ (run sub w).1 ∧ Stage.completed ∈ (run sub w).1) := by
  rcases hext : w.extractOut with e | t
  · refine ⟨?_, ?_, ?_, ?_⟩ <;> simp [run, hext, stepOk, List.Chain']
  · rcases hsc : w.scoreOut with e | p
    · refine ⟨?_, ?_, ?_, ?_⟩ <;> simp [run, hext, hsc, stepOk, List.Chain']
    · obtain ⟨ats, dims⟩ := p
      refine ⟨?_, ?_, ?_, ?_⟩ <;> simp [run, hext, hsc, stepOk, List.Chain']

/-- Witness for `C6_state_machine` at the worked example run. -/
theorem C6_state_machine_witness :
    (run exampleSubmission exampleWorldEmailFail).1.head? = some Stage.received
      ∧ List.Chain' (fun a b => stepOk a b = true)
          (run exampleSubmission exampleWorldEmailFail).1
      ∧ ((run exampleSubmission exampleWorldEmailFail).1.getLast?
            = some Stage.completed
          ∨ (run exampleSubmission exampleWorldEmailFail).1.getLast?
            = some Stage.failed)
      ∧ (Stage.notifying ∈ (run exampleSubmission exampleWorldEmailFail).1 →
          Stage.failed ∉ (run exampleSubmission exampleWorldEmailFail).1
            ∧ Stage.completed ∈ (run exampleSubmission exampleWorldEmailFail).1) :=
  C6_state_machine exampleSubmission exampleWorldEmailFail

/-- C7: every `ScoringResult` the orchestrator constructs satisfies
`final_score = aggregate ats_check.score dimension_scores` — the Score
Aggregator is the only producer of `final_score` — and the
presentation layer only formats it: the displayed percentage is a
function of `final_score` alone. -/
theorem C7_final_score_invariant :
    (∀ (sub : Submission) (w : ExternalWorld) (r : ScoringResult),
        (run sub w).2 = Except.ok r →
        r.final_score = aggregate r.ats_check.score r.dimension_scores)
      ∧ ∀ r1 r2 : ResObj, r1.final_score = r2.final_score →
          (renderObj r1).percent = (renderObj r2).percent
            ∧ (renderObj r1).finalScore = (renderObj r2).finalScore := by
  constructor
  · intro sub w r hok
    rcases hext : w.extractOut with e | t
    · simp [run, hext] at hok
    · rcases hsc : w.scoreOut with e | p
      · simp [run, hext, hsc] at hok
      · obtain ⟨ats, dims⟩ := p
        simp [run, hext, hsc] at hok
        subst hok
        rfl
  · intro r1 r2 h
    constructor <;> simp [renderObj, h]

/-- Witness for `C7_final_score_invariant` at the worked example run
and two result objects sharing a `final_score`. -/
theorem C7_final_score_invariant_witness :
    exampleResult.final_score
        = aggregate exampleResult.ats_check.score exampleResult.dimension_scores
      ∧ (renderObj ⟨none, none, none, JsVal.num 0.823⟩).percent
          = (renderObj ⟨some ⟨some "John Doe", none, none⟩, none, none,
              JsVal.num 0.823⟩).percent :=
  ⟨C7_final_score_invariant.1 exampleSubmission exampleWorldEmailFail
      exampleResult rfl,
   (C7_final_score_invariant.2 ⟨none, none, none, JsVal.num 0.823⟩
      ⟨some ⟨some "John Doe", none, none⟩, none, none, JsVal.num 0.823⟩ rfl).1⟩

/-! ## Claims about the front end -/

/-- C9: `handleFileUpload` with an empty selected role sets the error
message `Select a job role first` and issues no request, leaving
`loading` and `result` untouched; a request is issued exactly when the
selected role is non-empty, and then it carries the built form data. -/
theorem C9_role_required (st : DashboardState) (file : String)
    (ci : CandidateForm) :
    (st.selectedRole = "" →
        (handleFileUpload st file ci).2 = none
          ∧ (handleFileUpload st file ci).1.error = "Select a job role first"
          ∧ (handleFileUpload st file ci).1.loading = st.loading
          ∧ (handleFileUpload st file ci).1.result = st.result)
      ∧ ((handleFileUpload st file ci).2.isSome ↔ st.selectedRole ≠ "")
      ∧ (st.selectedRole ≠ "" →
          (handleFileUpload st file ci).2
            = some (buildFormData file st.selectedRole ci)) := by
  by_cases h : st.selectedRole = "" <;> simp [handleFileUpload, h]

/-- Witness for `C9_role_required` on a dashboard state with no
selected role. -/
theorem C9_role_required_witness :
    (DashboardState.selectedRole ⟨[], "", false, none, ""⟩ = "" →
        (handleFileUpload ⟨[], "", false, none, ""⟩ "resume.pdf" ⟨"", "", ""⟩).2 = none
          ∧ (handleFileUpload ⟨[], "", false, none, ""⟩ "resume.pdf" ⟨"", "", ""⟩).1.error
              = "Select a job role first"
          ∧ (handleFileUpload ⟨[], "", false, none, ""⟩ "resume.pdf" ⟨"", "", ""⟩).1.loading
              = DashboardState.loading ⟨[], "", false, none, ""⟩
          ∧ (handleFileUpload ⟨[], "", false, none, ""⟩ "resume.pdf" ⟨"", "", ""⟩).1.result
              = DashboardState.result ⟨[], "", false, none, ""⟩)
      ∧ ((handleFileUpload ⟨[], "", false, none, ""⟩ "resume.pdf" ⟨"", "", ""⟩).2.isSome
          ↔ DashboardState.selectedRole ⟨[], "", false, none, ""⟩ ≠ "")
      ∧ (DashboardState.selectedRole ⟨[], "", false, none, ""⟩ ≠ "" →
          (handleFileUpload ⟨[], "", false, none, ""⟩ "resume.pdf" ⟨"", "", ""⟩).2
            = some (buildFormData "resume.pdf"
                (DashboardState.selectedRole ⟨[], "", false, none, ""⟩) ⟨"", "", ""⟩)) :=
  C9_role_required ⟨[], "", false, none, ""⟩ "resume.pdf" ⟨"", "", ""⟩

/-- C10: `ResultsDisplay` is total: a null result renders nothing, and
every object renders, substituting defaults — `N/A` contact fields
when `candidate_info` is missing, `No` and no reasons block when
`ats_check` is missing, the `N/A` dimensions block when
`dimension_scores` is missing, and 0 for a non-numeric
`final_score`. -/
theorem C10_render_total :
    render none = none
      ∧ ∀ r : ResObj, ∃ out : RenderedResult,
          render (some r) = some out
            ∧ (r.candidate_info = none →
                out.name = "N/A" ∧ out.email = "N/A" ∧ out.phone = "N/A")
            ∧ (r.ats_check = none →
                out.passedText = "No" ∧ out.reasonsShown = none)
            ∧ (r.dimension_scores = none → out.dimsNA = true)
            ∧ (∀ q : ℚ, r.final_score = JsVal.num q → out.finalScore = q)
            ∧ ((∀ q : ℚ, r.final_score ≠ JsVal.num q) → out.finalScore = 0) := by
  refine ⟨rfl, fun r => ⟨renderObj r, rfl, ?_, ?_, ?_, ?_, ?_⟩⟩
  · intro h
    simp [renderObj, h, jsStrOr]
  · intro h
    simp [renderObj, h]
  · intro h
    simp [renderObj, h]
  · intro q h
    simp [renderObj, h, numOr0]
  · intro h
    rcases hv : r.final_score with q | s | _
    · exact absurd hv (h q)
    · simp [renderObj, hv, numOr0]
    · simp [renderObj, hv, numOr0]

/-- Witness for `C10_render_total` on the everything-missing object
with an undefined `final_score`. -/
theorem C10_render_total_witness :
    ∃ out : RenderedResult,
      render (some ⟨none, none, none, JsVal.undef⟩) = some out
        ∧ (ResObj.candidate_info ⟨none, none, none, JsVal.undef⟩ = none →
            out.name = "N/A" ∧ out.email = "N/A" ∧ out.phone = "N/A")
        ∧ (ResObj.ats_check ⟨none, none, none, JsVal.undef⟩ = none →
            out.passedText = "No" ∧ out.reasonsShown = none)
        ∧ (ResObj.dimension_scores ⟨none, none, none, JsVal.undef⟩ = none →
            out.dimsNA = true)
        ∧ (∀ q : ℚ,
            ResObj.final_score ⟨none, none, none, JsVal.undef⟩ = JsVal.num q →
            out.finalScore = q)
        ∧ ((∀ q : ℚ,
            ResObj.final_score ⟨none, none, none, JsVal.undef⟩ ≠ JsVal.num q) →
            out.finalScore = 0) :=
  C10_render_total.2 ⟨none, none, none, JsVal.undef⟩

/-! ## Claims about the documented response shape -/

/-- C8 counterexample: the documented successful `/api/process`
response has an `ats_check` object whose keys are `score`,
`recommendation`, `strong_point`, `weak_point` — it contains neither a
`passed` nor a `reasons` field. -/
theorem C8_counterexample :
    readmeResponse.getField "status" = some (Json.str "processed")
      ∧ readmeResponse.getField "ats_check" = some readmeAtsCheck
      ∧ readmeAtsCheck.keys
          = ["score", "recommendation", "strong_point", "weak_point"]
      ∧ "passed" ∉ readmeAtsCheck.keys
      ∧ "reasons" ∉ readmeAtsCheck.keys
      ∧ readmeResponse.getField "meets_ats_threshold" = some (Json.jbool true) := by
  refine ⟨rfl, rfl, rfl, ?_, ?_, rfl⟩ <;> decide

/-- C8 amended: in the successful response as the repository documents
it, `ats_check` carries exactly `score` (an integer in 0–100),
`recommendation`, `strong_point` and `weak_point`; the threshold flag
is the top-level `meets_ats_threshold`, true exactly when the score
reaches the configured threshold (default 70). -/
theorem C8_response_shape (threshold score : ℤ)
    (recommendation strongPoint weakPoint : String) (ci dims : Json)
    (finalScore : ℚ) (emailSent : Bool)
    (h0 : 0 ≤ score) (h1 : score ≤ 100) :
    (mkProcessResponse threshold score recommendation strongPoint weakPoint
        ci dims finalScore emailSent).getField "ats_check"
        = some (mkAtsCheckJson score recommendation strongPoint weakPoint)
      ∧ (mkAtsCheckJson score recommendation strongPoint weakPoint).keys
          = ["score", "recommendation", "strong_point", "weak_point"]
      ∧ (mkAtsCheckJson score recommendation strongPoint weakPoint).getField
          "score" = some (Json.num (score : ℚ))
      ∧ (0 : ℚ) ≤ (score : ℚ) ∧ (score : ℚ) ≤ 100
      ∧ ((mkProcessResponse threshold score recommendation strongPoint weakPoint
            ci dims finalScore emailSent).getField "meets_ats_threshold"
            = some (Json.jbool true)
          ↔ threshold ≤ score) := by
  refine ⟨rfl, rfl, rfl, ?_, ?_, ?_⟩
  · exact_mod_cast h0
  · exact_mod_cast h1
  · simp [mkProcessResponse, Json.getField, Json.lookupField]

/-- Witness for `C8_response_shape` at the README example values with
the default threshold. -/
theorem C8_response_shape_witness :
    (mkProcessResponse defaultAtsThreshold 85 "Strong ML background"
        "Advanced Python skills" "Limited production experience"
        Json.null Json.null 0.823 true).getField "ats_check"
        = some (mkAtsCheckJson 85 "Strong ML background"
            "Advanced Python skills" "Limited production experience")
      ∧ (mkAtsCheckJson 85 "Strong ML background" "Advanced Python skills"
            "Limited production experience").keys
          = ["score", "recommendation", "strong_point", "weak_point"]
      ∧ (mkAtsCheckJson 85 "Strong ML background" "Advanced Python skills"
            "Limited production experience").getField "score"
          = some (Json.num ((85 : ℤ) : ℚ))
      ∧ (0 : ℚ) ≤ ((85 : ℤ) : ℚ) ∧ ((85 : ℤ) : ℚ) ≤ 100
      ∧ ((mkProcessResponse defaultAtsThreshold 85 "Strong ML background"
            "Advanced Python skills" "Limited production experience"
            Json.null Json.null 0.823 true).getField "meets_ats_threshold"
            = some (Json.jbool true)
          ↔ defaultAtsThreshold ≤ 85) :=
  C8_response_shape defaultAtsThreshold 85 "Strong ML background"
    "Advanced Python skills" "Limited production experience"
    Json.null Json.null 0.823 true (by norm_num) (by norm_num)

end RecruitmentAgent
